import Mathlib

/-!
# Verification of the auto-sos wake-word detector pipeline

Shallow embedding of `wake_word_detector.py` and `wake_word_detector_vosk.py`:
the cooldown-gated alert dispatcher (`send_alert`), the health probe
(`test_whatsapp_service`), the startup sequence of `main`, and the per-frame
detection handlers of the two engine variants.

Clock readings (`time.time()` values) are modelled as exact rationals; the
cooldown arithmetic in the source is plain subtraction and comparison, so no
floating-point rounding is load-bearing for the properties below.
-/

namespace AutoSOS

/-- A `time.time()` reading, modelled exactly. -/
abbrev Time := ℚ

/-- Python `int(q)` truncates toward zero. -/
def pyInt (q : ℚ) : ℤ :=
  if 0 ≤ q then ⌊q⌋ else ⌈q⌉

/-- The result the `requests.post(WHATSAPP_URL, ...)` call delivers to the
`try` block of `send_alert`: either a response (status code and body text),
or one of the exceptions the handlers at the bottom of `send_alert` catch
(`requests.exceptions.ConnectionError`, or any other `Exception`). -/
inductive HttpResult where
  | response (status : ℕ) (body : String)
  | connectionError
  | otherError (desc : String)
deriving DecidableEq, Repr

/-- The spec's `AlertOutcome` classification, read off the log/return branches
of `send_alert`. `SkippedCooldown` carries the integer the code computes and
reports on that branch (`elapsed = int(current_time - last_detection_time)`). -/
inductive AlertOutcome where
  | Sent
  | SkippedCooldown (reported : ℤ)
  | FailedConnection
  | FailedHttpStatus (code : ℕ) (body : String)
  | FailedOther (desc : String)
deriving DecidableEq, Repr

/-- The module-level mutable cooldown state: `last_detection_time`. -/
structure CooldownState where
  last_detection_time : Time
deriving DecidableEq, Repr

/-- `last_detection_time = 0` (wake_word_detector.py line 34,
wake_word_detector_vosk.py line 29). -/
def initState : CooldownState := ⟨0⟩

/-- The cooldown check at the top of `send_alert`
(`if current_time - last_detection_time < COOLDOWN_SECONDS: ... return False`):
`true` means the alert attempt is allowed to proceed. -/
def cooldownAllow (C : ℚ) (st : CooldownState) (now : Time) : Bool :=
  !(now - st.last_detection_time < C)

/-- Embedding of `send_alert` (wake_word_detector.py lines 43-80).
Inputs: the configured `COOLDOWN_SECONDS`, the current cooldown state, the
`time.time()` reading taken at entry, and the result the HTTP POST would
produce if attempted.  Output: the Python return value, the `AlertOutcome`
the branch corresponds to, and the new cooldown state.  Every constructor of
`HttpResult` (including both exception shapes) is mapped to a normal return:
the `except` handlers mean no exception escapes to the caller. -/
def send_alert (C : ℚ) (st : CooldownState) (now : Time) (http : HttpResult) :
    Bool × AlertOutcome × CooldownState :=
  if now - st.last_detection_time < C then
    (false, .SkippedCooldown (pyInt (now - st.last_detection_time)), st)
  else
    match http with
    | .response status body =>
        if status = 200 then
          (true, .Sent, ⟨now⟩)
        else
          (false, .FailedHttpStatus status body, st)
    | .connectionError => (false, .FailedConnection, st)
    | .otherError desc => (false, .FailedOther desc, st)

/-- A detection event reaching the alert path: the clock reading at that
detection, paired with what the alert service would answer then. -/
abbrev DetectionInput := Time × HttpResult

/-- Run a sequence of detections through `send_alert`, threading the mutable
`last_detection_time` exactly as the module-level global is threaded through
successive calls; collects each detection's timestamp and outcome. -/
def runDetections (C : ℚ) (st : CooldownState) :
    List DetectionInput → List (Time × AlertOutcome) × CooldownState
  | [] => ([], st)
  | (t, h) :: rest =>
      let r := send_alert C st t h
      let rec' := runDetections C r.2.2 rest
      ((t, r.2.1) :: rec'.1, rec'.2)

/-! ## Wake-word engine variants -/

/-- Python's `str.lower()`, on the character list of a string. -/
def toLowerStr (s : List Char) : List Char := s.map Char.toLower

/-- `pat` is a prefix of `text` (character-by-character). -/
def isPrefixB : List Char → List Char → Bool
  | [], _ => true
  | _ :: _, [] => false
  | a :: as, b :: bs => a == b && isPrefixB as bs

/-- Python's substring containment `pat in text`: `pat` occurs contiguously
in `text`. -/
def containsSub (pat : List Char) : List Char → Bool
  | [] => isPrefixB pat []
  | text@(_ :: rest) => isPrefixB pat text || containsSub pat rest

/-- The configured wake-word list after the load-time lowercasing
`WAKE_WORDS = [word.lower() for word in config[...].get('wakeWords', ...)]`
(wake_word_detector_vosk.py line 22). -/
def mkWakeWords (configured : List (List Char)) : List (List Char) :=
  configured.map toLowerStr

/-- Embedding of the finalized-result handler of the Vosk listening loop
(wake_word_detector_vosk.py lines 192-202): lowercase the recognized text,
skip it if empty, otherwise collect the wake words occurring in it and, if
any, emit a detection carrying the first one (`detected_words[0]`).
Returns the matched word of the detection event, if one is produced. -/
def handleFinalText (wakeWords : List (List Char)) (rawText : List Char) :
    Option (List Char) :=
  let text := toLowerStr rawText
  if text = [] then none
  else
    let detected_words := wakeWords.filter (fun word => containsSub word text)
    match detected_words with
    | [] => none
    | w :: _ => some w

/-- What one loop iteration of the Vosk variant sees for a frame: either
`AcceptWaveform` returned true and `Result()` yielded this finalized text,
or the result is still partial (`AcceptWaveform` false) and the handler
body is skipped entirely. -/
inductive RecognizerStep where
  | finalized (text : List Char)
  | partialResult
deriving DecidableEq

/-- Detection produced by one Vosk loop iteration
(wake_word_detector_vosk.py lines 190-202). -/
def voskObserve (wakeWords : List (List Char)) : RecognizerStep → Option (List Char)
  | .finalized text => handleFinalText wakeWords text
  | .partialResult => none

/-- Embedding of the Porcupine per-frame dispatch (wake_word_detector.py
lines 217-222): `keyword_index = porcupine.process(pcm)` followed by
`if keyword_index >= 0: ... send_alert()`.  Returns how many times the
alert path is invoked for that frame. -/
def porcupineFrameAlerts (keyword_index : ℤ) : ℕ :=
  if keyword_index ≥ 0 then 1 else 0

/-! ## Startup sequence, health probe and listening-loop step -/

/-- Result of the pre-flight `GET /health` probe, as classified by
`test_whatsapp_service`: a reachable service answering
`whatsappConnected: true`, a reachable one answering false (or an
unparsable/other failure), or a connection failure. -/
inductive HealthResult where
  | Ready
  | NotReady
  | Unreachable
deriving DecidableEq, Repr

/-- Embedding of `test_whatsapp_service` (wake_word_detector.py lines
101-121): returns `True` only when the service responded and
`data.get('whatsappConnected')` is truthy; every failure mode is caught
and returns `False`. -/
def test_whatsapp_service : HealthResult → Bool
  | .Ready => true
  | .NotReady => false
  | .Unreachable => false

/-- Success or failure of one startup step (Porcupine creation, audio-stream
opening), i.e. whether the corresponding `try` block raised. -/
inductive InitResult where
  | ok
  | err (msg : String)
deriving DecidableEq

/-- Where `main` ends up after its startup sequence, and what it did on the
way: whether the listening loop was entered, the process exit code implied
by the control flow (`return` from `main` ends the script normally, so the
process exit status is 0 on every such path), how many fatal-failure reports
were logged, and whether the not-ready service warning was logged. -/
structure StartupOutcome where
  enteredLoop : Bool
  exitCode : ℕ
  fatalReports : ℕ
  warnedService : Bool
deriving DecidableEq, Repr

/-- Embedding of the startup portion of `main` (wake_word_detector.py lines
124-210): health check; if not ready, warn and wait for the operator
(Ctrl-C aborts with a plain `return`, anything else proceeds); then
Porcupine initialization (on exception: log the failure and remediation
once, `return`); then audio-stream opening (on exception: log once, clean
up, `return`); otherwise the listening loop is entered.  `operatorProceeds`
is false when the operator answers the prompt with Ctrl-C. -/
def mainStartup (health : HealthResult) (operatorProceeds : Bool)
    (engineInit audioOpen : InitResult) : StartupOutcome :=
  let service_ready := test_whatsapp_service health
  let warned := !service_ready
  if !service_ready && !operatorProceeds then
    ⟨false, 0, 0, warned⟩
  else
    match engineInit with
    | .err _ => ⟨false, 0, 1, warned⟩
    | .ok =>
        match audioOpen with
        | .err _ => ⟨false, 0, 1, warned⟩
        | .ok => ⟨true, 0, 0, warned⟩

/-- The alert attempt made for the first detection of a session, if the
session's startup reaches the listening loop at all: `send_alert` is called
with the initial cooldown state and whatever `requests.post` would answer.
Its result does not depend on the health-check outcome — `send_alert` takes
no health input. -/
def sessionFirstDetection (health : HealthResult) (operatorProceeds : Bool)
    (C : ℚ) (now : Time) (http : HttpResult) :
    Option (Bool × AlertOutcome × CooldownState) :=
  let s := mainStartup health operatorProceeds .ok .ok
  if s.enteredLoop then some (send_alert C initState now http) else none

/-- Log events a single listening-loop iteration can emit
(wake_word_detector.py lines 211-222). `overflowLog` is listed so that its
absence is expressible: no branch of the loop body emits it. -/
inductive LoopLogEvent where
  | detectionLog
  | overflowLog
deriving DecidableEq, Repr

/-- One iteration of the Porcupine listening loop (wake_word_detector.py
lines 211-222) given whether the device buffer overflowed during the
`audio_stream.read` and the engine's match index for the frame.  The read
is made with `exception_on_overflow=False`, so an overflow raises nothing:
the read returns (with dropped samples) and the body runs unconditionally.
Returns the log events emitted and whether the loop keeps listening. -/
def listenIter (overflowed : Bool) (keyword_index : ℤ) :
    List LoopLogEvent × Bool :=
  let _ := overflowed
  (if keyword_index ≥ 0 then [.detectionLog] else [], true)

/-- The outcomes of an attempted-but-failed delivery (as opposed to a
success or a cooldown skip). -/
def isFailureB : AlertOutcome → Bool
  | .FailedConnection => true
  | .FailedHttpStatus _ _ => true
  | .FailedOther _ => true
  | .Sent => false
  | .SkippedCooldown _ => false

/-! ## Helper lemmas -/

lemma send_alert_sent_le (C : ℚ) (st : CooldownState) (now : Time)
    (http : HttpResult) (h : (send_alert C st now http).2.1 = .Sent) :
    C ≤ now - st.last_detection_time := by
  by_cases hc : now - st.last_detection_time < C
  · simp [send_alert, hc] at h
  · linarith [not_lt.mp hc]

lemma send_alert_state_eq (C : ℚ) (st : CooldownState) (now : Time)
    (http : HttpResult) :
    (send_alert C st now http).2.2 =
      if (send_alert C st now http).2.1 = .Sent then ⟨now⟩ else st := by
  unfold send_alert
  by_cases hc : now - st.last_detection_time < C
  · simp [hc]
  · rcases http with ⟨status, body⟩ | _ | d
    · by_cases hs : status = 200 <;> simp [hc, hs]
    · simp [hc]
    · simp [hc]

lemma runDetections_sent_ge (C : ℚ) (hC : 0 ≤ C) :
    ∀ (evs : List DetectionInput) (st : CooldownState),
      ∀ p ∈ (runDetections C st evs).1, p.2 = .Sent →
        st.last_detection_time + C ≤ p.1
  | [], st => by
      intro p hp
      simp [runDetections] at hp
  | (t, h) :: rest, st => by
      intro p hp hsent
      simp only [runDetections, List.mem_cons] at hp
      rcases hp with rfl | hp
      · have := send_alert_sent_le C st t h (by simpa using hsent)
        show st.last_detection_time + C ≤ t
        linarith
      · have ih := runDetections_sent_ge C hC rest (send_alert C st t h).2.2 p hp hsent
        have hst := send_alert_state_eq C st t h
        by_cases hS : (send_alert C st t h).2.1 = .Sent
        · have h1 := send_alert_sent_le C st t h hS
          rw [hst, if_pos hS] at ih
          show st.last_detection_time + C ≤ p.1
          simp only [] at ih
          linarith
        · rw [hst, if_neg hS] at ih
          exact ih

lemma runDetections_pairwise (C : ℚ) (hC : 0 ≤ C) :
    ∀ (evs : List DetectionInput) (st : CooldownState),
      List.Pairwise
        (fun p q : Time × AlertOutcome =>
          p.2 = .Sent → q.2 = .Sent → C ≤ q.1 - p.1)
        (runDetections C st evs).1
  | [], st => by simp [runDetections]
  | (t, h) :: rest, st => by
      simp only [runDetections]
      refine List.Pairwise.cons ?_ (runDetections_pairwise C hC rest _)
      intro q hq hpsent hqsent
      have hge := runDetections_sent_ge C hC rest (send_alert C st t h).2.2 q hq hqsent
      have hst := send_alert_state_eq C st t h
      rw [hst, if_pos (by simpa using hpsent)] at hge
      simp only [] at hge
      show C ≤ q.1 - t
      linarith

lemma filter_head?_eq_find? {α : Type} (p : α → Bool) :
    ∀ l : List α, (l.filter p).head? = l.find? p
  | [] => rfl
  | a :: l => by
      by_cases h : p a <;>
        simp [List.filter_cons, List.find?_cons, h, filter_head?_eq_find? p l]

lemma handleFinalText_eq (ww : List (List Char)) (raw : List Char) :
    handleFinalText ww raw =
      if raw = [] then none
      else ww.find? (fun w => containsSub w (toLowerStr raw)) := by
  by_cases h : raw = []
  · simp [handleFinalText, h, toLowerStr]
  · have h2 : ¬ (toLowerStr raw = []) := by simp [toLowerStr, h]
    rw [if_neg h, ← filter_head?_eq_find? (fun w => containsSub w (toLowerStr raw)) ww]
    cases hf : ww.filter (fun w => containsSub w (toLowerStr raw)) with
    | nil => simp [handleFinalText, h2, hf]
    | cons w ws => simp [handleFinalText, h2, hf]

/-! ## Claim theorems -/

/-- C1: for every non-negative `cooldownSeconds` value `C` and every strictly
increasing sequence of detection timestamps (each paired with whatever the
alert service would answer), running the detections through `send_alert`
starting from the initial state yields `Sent` outcomes whose recorded
timestamps are pairwise at least `C` apart: no two `Sent` outcomes occur
with less than `C` between their timestamps, and in particular a `Sent` at
`ti` implies every earlier `Sent` is at least `C` before it. -/
theorem cooldown_no_two_sent (C : ℚ) (hC : 0 ≤ C) (evs : List DetectionInput)
    (hsorted : List.Chain' (fun p q : DetectionInput => p.1 < q.1) evs) :
    List.Pairwise
      (fun p q : Time × AlertOutcome =>
        p.2 = .Sent → q.2 = .Sent → C ≤ q.1 - p.1)
      (runDetections C initState evs).1 :=
  runDetections_pairwise C hC evs initState

/-- Witness for C1 at `C = 30` and detections at `t = 0, 40, 55` (the middle
one succeeding, the last one hitting the cooldown). -/
theorem cooldown_no_two_sent_witness :
    (0 : ℚ) ≤ 30 ∧
    List.Chain' (fun p q : DetectionInput => p.1 < q.1)
      [(0, .response 200 "ok"), (40, .response 200 "ok"),
       (55, .response 200 "ok")] ∧
    List.Pairwise
      (fun p q : Time × AlertOutcome =>
        p.2 = .Sent → q.2 = .Sent → (30 : ℚ) ≤ q.1 - p.1)
      (runDetections 30 initState
        [(0, .response 200 "ok"), (40, .response 200 "ok"),
         (55, .response 200 "ok")]).1 :=
  ⟨by norm_num, by norm_num [List.chain'_cons],
    cooldown_no_two_sent 30 (by norm_num) _ (by norm_num [List.chain'_cons])⟩

/-- C2: `last_detection_time` becomes the current reading exactly when the
outcome is `Sent` and is left untouched otherwise; the Python return value
is `True` exactly on `Sent`; and after any failed delivery attempt the state
is unchanged and every detection at a time `t' ≥ now` passes the cooldown
check (immediate retry is eligible). -/
theorem send_alert_state_update (C : ℚ) (st : CooldownState) (now : Time)
    (http : HttpResult) :
    ((send_alert C st now http).2.2 =
      if (send_alert C st now http).2.1 = .Sent then ⟨now⟩ else st) ∧
    ((send_alert C st now http).1 = true ↔
      (send_alert C st now http).2.1 = .Sent) ∧
    (isFailureB (send_alert C st now http).2.1 = true →
      (send_alert C st now http).2.2 = st ∧
      ∀ t', now ≤ t' →
        cooldownAllow C (send_alert C st now http).2.2 t' = true) := by
  refine ⟨send_alert_state_eq C st now http, ?_, ?_⟩
  · unfold send_alert
    by_cases hc : now - st.last_detection_time < C
    · simp [hc]
    · rcases http with ⟨s, b⟩ | _ | d
      · by_cases hs : s = 200 <;> simp [hc, hs]
      · simp [hc]
      · simp [hc]
  · intro hf
    have hns : (send_alert C st now http).2.1 ≠ .Sent := by
      intro hS
      rw [hS] at hf
      simp [isFailureB] at hf
    have hst : (send_alert C st now http).2.2 = st := by
      rw [send_alert_state_eq C st now http, if_neg hns]
    refine ⟨hst, ?_⟩
    have hgate : ¬ (now - st.last_detection_time < C) := by
      intro hc
      have hskip : (send_alert C st now http).2.1 =
          .SkippedCooldown (pyInt (now - st.last_detection_time)) := by
        simp [send_alert, hc]
      rw [hskip] at hf
      simp [isFailureB] at hf
    intro t' ht'
    rw [hst]
    simp only [cooldownAllow, Bool.not_eq_true', decide_eq_false_iff_not, not_lt]
    have := not_lt.mp hgate
    linarith

/-- Witness for C2's failure-retry clause at a concrete HTTP-500 response. -/
theorem send_alert_state_update_witness :
    isFailureB (send_alert 30 initState 45 (.response 500 "upstream error")).2.1
        = true ∧
    (send_alert 30 initState 45 (.response 500 "upstream error")).2.2
        = initState ∧
    cooldownAllow 30
      (send_alert 30 initState 45 (.response 500 "upstream error")).2.2 46
        = true :=
  ⟨by norm_num [send_alert, initState, isFailureB],
    ((send_alert_state_update 30 initState 45
      (.response 500 "upstream error")).2.2
        (by norm_num [send_alert, initState, isFailureB])).1,
    ((send_alert_state_update 30 initState 45
      (.response 500 "upstream error")).2.2
        (by norm_num [send_alert, initState, isFailureB])).2 46 (by norm_num)⟩

/-- C3 counterexample: with `cooldownSeconds = 30`, cooldown state recorded
at `t = 0` and a detection at `t = 10`, the code's skip branch reports the
elapsed time `int(now - last_detection_time) = 10`, not the remaining wait
`30 - (10 - 0) = 20` the claim asserts. -/
theorem skip_report_not_remaining :
    (send_alert 30 ⟨0⟩ 10 (.response 200 "ok")).2.1 = .SkippedCooldown 10 ∧
    (30 : ℚ) - (10 - 0) = 20 ∧
    ¬ (send_alert 30 ⟨0⟩ 10 (.response 200 "ok")).2.1 = .SkippedCooldown 20 := by
  refine ⟨by norm_num [send_alert, pyInt], by norm_num,
    by norm_num [send_alert, pyInt]⟩

/-- C3 amended: the cooldown decision allows exactly when the clamped
remaining wait `max 0 (C - (now - last_detection_time))` is `≤ 0`; the
decision itself mutates nothing — on a deny `send_alert` returns with the
state unchanged — but the value reported on a deny is the truncated elapsed
time `int(now - last_detection_time)`, not the remaining wait; with
`cooldownSeconds = 30` and the last success recorded at `t = 0`, a detection
at `t = 10` is denied (reporting elapsed `10`; the remaining wait `20` is
not reported) and a detection at `t = 31` yields `Sent`. -/
theorem cooldown_decision_spec (C : ℚ) (st : CooldownState) (now : Time)
    (http : HttpResult) :
    (cooldownAllow C st now = true ↔
      max 0 (C - (now - st.last_detection_time)) ≤ 0) ∧
    (cooldownAllow C st now = false →
      send_alert C st now http =
        (false, .SkippedCooldown (pyInt (now - st.last_detection_time)), st)) ∧
    send_alert 30 ⟨0⟩ 10 (.response 200 "ok")
      = (false, .SkippedCooldown 10, ⟨0⟩) ∧
    send_alert 30 ⟨0⟩ 31 (.response 200 "ok") = (true, .Sent, ⟨31⟩) := by
  refine ⟨?_, ?_, by norm_num [send_alert, pyInt], by norm_num [send_alert]⟩
  · simp only [cooldownAllow, Bool.not_eq_true', decide_eq_false_iff_not,
      not_lt, max_le_iff]
    constructor
    · intro h
      exact ⟨le_refl 0, by linarith⟩
    · rintro ⟨-, h⟩
      linarith
  · intro hdeny
    have hc : now - st.last_detection_time < C := by
      simpa [cooldownAllow] using hdeny
    simp [send_alert, hc]

/-- Witness for C3's amended deny clause at `C = 30`, `last = 0`, `now = 10`. -/
theorem cooldown_decision_spec_witness :
    cooldownAllow 30 ⟨0⟩ 10 = false ∧
    send_alert 30 ⟨0⟩ 10 HttpResult.connectionError
      = (false, .SkippedCooldown (pyInt (10 - (0 : ℚ))), ⟨0⟩) :=
  ⟨by norm_num [cooldownAllow],
    (cooldown_decision_spec 30 ⟨0⟩ 10 HttpResult.connectionError).2.1
      (by norm_num [cooldownAllow])⟩

/-- C4: the continuous-recognizer variant produces a detection for a
finalized text exactly when the text is non-empty and some configured wake
word (lowercased at load) occurs as a substring of the lowercased text; the
matched word is the first match in configuration order (`find?` over the
configured order); partial results produce no event; and on the spec's
examples, `"please help me now"` with `["help","sos"]` matches `"help"`,
`"hello there"` matches nothing, and matching is case-insensitive
(`"Please HELP me now"` also matches `"help"`). -/
theorem vosk_detection_spec (configured : List (List Char)) (raw : List Char) :
    ((voskObserve (mkWakeWords configured) (.finalized raw)).isSome = true ↔
      raw ≠ [] ∧ ∃ w ∈ mkWakeWords configured,
        containsSub w (toLowerStr raw) = true) ∧
    (voskObserve (mkWakeWords configured) (.finalized raw) =
      if raw = [] then none
      else (mkWakeWords configured).find?
        (fun w => containsSub w (toLowerStr raw))) ∧
    voskObserve (mkWakeWords configured) .partialResult = none ∧
    voskObserve (mkWakeWords [String.toList "help", String.toList "sos"])
      (.finalized (String.toList "please help me now"))
        = some (String.toList "help") ∧
    voskObserve (mkWakeWords [String.toList "help", String.toList "sos"])
      (.finalized (String.toList "hello there")) = none ∧
    voskObserve (mkWakeWords [String.toList "help", String.toList "sos"])
      (.finalized (String.toList "Please HELP me now"))
        = some (String.toList "help") := by
  refine ⟨?_, handleFinalText_eq _ raw, rfl, by decide, by decide, by decide⟩
  show (handleFinalText (mkWakeWords configured) raw).isSome = true ↔ _
  rw [handleFinalText_eq]
  by_cases h : raw = []
  · simp [h]
  · simp [h, List.find?_isSome]

/-- C5: one frame of the keyword-spotter loop invokes the alert path exactly
once when the engine returns a match index `≥ 0` and not at all when it
returns a negative index. -/
theorem spotter_frame_alerts (keyword_index : ℤ) :
    (0 ≤ keyword_index → porcupineFrameAlerts keyword_index = 1) ∧
    (keyword_index < 0 → porcupineFrameAlerts keyword_index = 0) := by
  constructor <;> intro h
  · simp [porcupineFrameAlerts, ge_iff_le, h]
  · simp [porcupineFrameAlerts, ge_iff_le, not_le.mpr h]

/-- Witness for C5 at match index `0` and at `-1`. -/
theorem spotter_frame_alerts_witness :
    porcupineFrameAlerts 0 = 1 ∧ porcupineFrameAlerts (-1) = 0 :=
  ⟨(spotter_frame_alerts 0).1 (by norm_num),
    (spotter_frame_alerts (-1)).2 (by norm_num)⟩

/-- C6: once the cooldown gate lets the attempt through, `send_alert`
classifies every possible result of the POST, exhaustively and exclusively:
status 200 yields `Sent` (and return `True`); any other status yields
`FailedHttpStatus` carrying the status code and response body; a connection
error yields `FailedConnection`; any other exception yields `FailedOther`;
no input ever produces a cooldown skip here, and every constructor of
`HttpResult` — the exception shapes included — is mapped to a normal return,
so no exception propagates to the detection loop. -/
theorem send_alert_classification (C : ℚ) (st : CooldownState) (now : Time)
    (h : cooldownAllow C st now = true) :
    (∀ body, send_alert C st now (.response 200 body)
      = (true, .Sent, ⟨now⟩)) ∧
    (∀ status body, status ≠ 200 →
      send_alert C st now (.response status body)
        = (false, .FailedHttpStatus status body, st)) ∧
    (send_alert C st now .connectionError = (false, .FailedConnection, st)) ∧
    (∀ desc, send_alert C st now (.otherError desc)
      = (false, .FailedOther desc, st)) ∧
    (∀ http r, (send_alert C st now http).2.1 ≠ .SkippedCooldown r) := by
  have hgate : ¬ (now - st.last_detection_time < C) := by
    simpa [cooldownAllow] using h
  refine ⟨?_, ?_, ?_, ?_, ?_⟩
  · intro body
    simp [send_alert, hgate]
  · intro status body hs
    simp [send_alert, hgate, hs]
  · simp [send_alert, hgate]
  · intro d
    simp [send_alert, hgate]
  · intro http r
    rcases http with ⟨s, b⟩ | _ | d
    · by_cases hs : s = 200 <;> simp [send_alert, hgate, hs]
    · simp [send_alert, hgate]
    · simp [send_alert, hgate]

/-- Witness for C6 at the spec's HTTP-500 scenario. -/
theorem send_alert_classification_witness :
    cooldownAllow 30 initState 45 = true ∧
    send_alert 30 initState 45 (.response 500 "upstream error")
      = (false, .FailedHttpStatus 500 "upstream error", initState) :=
  ⟨by norm_num [cooldownAllow, initState],
    (send_alert_classification 30 initState 45
      (by norm_num [cooldownAllow, initState])).2.1 500 "upstream error"
      (by norm_num)⟩

/-- C7 counterexample: when Porcupine initialization fails, `main` logs the
failure and executes a plain `return`, so the script ends normally — process
exit status `0`, not the non-zero-equivalent fatal status the claim
requires (the loop is indeed never entered and the failure reported once). -/
theorem init_failure_exit_zero :
    (mainStartup .Ready true (.err "init failed") .ok).enteredLoop = false ∧
    (mainStartup .Ready true (.err "init failed") .ok).fatalReports = 1 ∧
    (mainStartup .Ready true (.err "init failed") .ok).exitCode = 0 ∧
    ¬ (mainStartup .Ready true (.err "init failed") .ok).exitCode ≠ 0 := by
  refine ⟨rfl, rfl, rfl, by simp [mainStartup, test_whatsapp_service]⟩

/-- C7 amended: if engine initialization or audio-stream opening fails
during startup (and startup gets that far, i.e. the service was ready or the
operator proceeded), the session never enters the listening loop and the
failure is reported exactly once — but the process terminates by a normal
`return` from `main`, i.e. with exit status `0`, not a non-zero one. -/
theorem init_failure_shutdown (health : HealthResult) (op : Bool)
    (e a : InitResult)
    (hfail : (∃ m, e = .err m) ∨ (e = .ok ∧ ∃ m, a = .err m))
    (hproceed : test_whatsapp_service health = true ∨ op = true) :
    (mainStartup health op e a).enteredLoop = false ∧
    (mainStartup health op e a).fatalReports = 1 ∧
    (mainStartup health op e a).exitCode = 0 := by
  have hguard : (!test_whatsapp_service health && !op) = false := by
    rcases hproceed with h | h <;> simp [h]
  rcases hfail with ⟨m, rfl⟩ | ⟨rfl, m, rfl⟩ <;>
    simp [mainStartup, hguard]

/-- Witness for C7's amended statement at a concrete engine-init failure. -/
theorem init_failure_shutdown_witness :
    (mainStartup .Ready true (.err "no model") .ok).enteredLoop = false ∧
    (mainStartup .Ready true (.err "no model") .ok).fatalReports = 1 ∧
    (mainStartup .Ready true (.err "no model") .ok).exitCode = 0 :=
  init_failure_shutdown .Ready true (.err "no model") .ok
    (.inl ⟨"no model", rfl⟩) (.inl rfl)

/-- C8: the health probe is advisory only: for every health-check result —
`Unreachable` and `NotReady` included — if the operator proceeds at the
prompt, startup reaches the listening loop and the first detection's
`send_alert` call is made exactly as it would be after a `Ready` probe
(`send_alert` takes no health input, so the alert path is not gated by the
probe); a not-ready probe result leaves a logged warning. -/
theorem health_check_advisory (health : HealthResult) (C : ℚ) (now : Time)
    (http : HttpResult) :
    sessionFirstDetection health true C now http
      = some (send_alert C initState now http) ∧
    (test_whatsapp_service health = false →
      (mainStartup health true .ok .ok).warnedService = true) ∧
    (mainStartup health true .ok .ok).enteredLoop = true := by
  cases health <;>
    simp [sessionFirstDetection, mainStartup, test_whatsapp_service]

/-- Witness for C8 at an `Unreachable` health probe. -/
theorem health_check_advisory_witness :
    test_whatsapp_service .Unreachable = false ∧
    sessionFirstDetection .Unreachable true 30 45 (.response 200 "ok")
      = some (send_alert 30 initState 45 (.response 200 "ok")) ∧
    (mainStartup .Unreachable true .ok .ok).warnedService = true :=
  ⟨rfl, (health_check_advisory .Unreachable 30 45 (.response 200 "ok")).1,
    (health_check_advisory .Unreachable 30 45 (.response 200 "ok")).2.1 rfl⟩

/-- C9 counterexample: a loop iteration whose read overflowed (and whose
frame yields no match) emits no log event at all — in particular no overflow
log — because `exception_on_overflow=False` suppresses the condition at the
read call instead of catching and logging it; the loop does keep
listening. -/
theorem overflow_not_logged :
    listenIter true (-1) = ([], true) ∧
    LoopLogEvent.overflowLog ∉ (listenIter true (-1)).1 := by
  refine ⟨rfl, by simp [listenIter]⟩

/-- C9 amended: a buffer overflow during a frame read is suppressed at the
read call (`exception_on_overflow=False`): nothing is raised out of the
loop, the iteration behaves exactly as a non-overflowed read of the same
frame, and the loop remains listening — but no log message records the
overflow. -/
theorem overflow_loop_continues (overflowed : Bool) (keyword_index : ℤ) :
    (listenIter overflowed keyword_index).2 = true ∧
    listenIter overflowed keyword_index = listenIter false keyword_index ∧
    LoopLogEvent.overflowLog ∉ (listenIter overflowed keyword_index).1 := by
  refine ⟨rfl, rfl, ?_⟩
  by_cases h : (0 : ℤ) ≤ keyword_index <;> simp [listenIter, ge_iff_le, h]

/-- C10: the cooldown state starts at the integer `0`, not a distinct
"never" sentinel, so with no prior successful alert the cooldown check
allows a first detection exactly when the clock reading satisfies
`now ≥ cooldownSeconds`; any first detection at `now < cooldownSeconds` is
denied by the cooldown check (reporting the truncated elapsed time
`int(now)`). -/
theorem first_detection_gate (C : ℚ) (now : Time) (http : HttpResult) :
    initState.last_detection_time = 0 ∧
    (cooldownAllow C initState now = true ↔ C ≤ now) ∧
    (now < C →
      send_alert C initState now http
        = (false, .SkippedCooldown (pyInt now), initState)) := by
  refine ⟨rfl, ?_, ?_⟩
  · simp [cooldownAllow, initState, sub_zero, not_lt]
  · intro hlt
    simp [send_alert, initState, sub_zero, hlt]

/-- Witness for C10's denial clause at `C = 30`, `now = 10`. -/
theorem first_detection_gate_witness :
    (10 : ℚ) < 30 ∧
    send_alert 30 initState 10 (.response 200 "ok")
      = (false, .SkippedCooldown (pyInt 10), initState) :=
  ⟨by norm_num,
    (first_detection_gate 30 10 (.response 200 "ok")).2.2 (by norm_num)⟩

end AutoSOS
